import Mathlib

/-!
Verification of the groom transaction coordinator (package executor/store).

This file gives a shallow embedding of the Go sources of the repository:

* `executor` package (src/unnamed/part_001, first document): the `Operations`
  value, its staging mutators `Install`/`Remove`/`Clear`, the JSON
  serialization used by `store.persist` / `store.Operations` (load), the
  `withRetry` wrapper, `store.updateState`, the `ConsumerStore.Update`
  consumer mutation, the `ExecutorStore` transitions `Start`/`Done`/`Broken`,
  and the executor driver `Run`.
* `daemon` package (src/daemon/handlers.go): the `handleCommitTransaction`
  and `handleClearTransaction` HTTP handlers.

Modelling conventions:
* Go `error` values are `Option String` (a nil error is `none`, a non-nil
  error carries its message).
* Go slices of strings are `Option (List String)`: `none` models a nil
  slice, `some l` a non-nil slice of elements `l`.  The distinction matters
  because `json.Marshal` with `omitempty` omits both nil and empty slices,
  while `store.Operations` normalizes absent sequences to empty ones.
* The on-disk JSON document `operations.json` is modelled at the level of
  the Go struct `serializableOperations`: `SerialOps` below.  A field that
  carries `none` models a key omitted from the JSON object (`omitempty`).
* The filesystem is modelled as `Option SerialOps`: `none` is an absent
  `operations.json` (`os.IsNotExist`), `some s` a file holding record `s`.
* Transient I/O faults (read failure other than not-exist, write failure,
  flock errors) are injected through explicit boolean fault flags, since
  the Go code branches on them.
* Real time (the 200 ms retry delay, the 100 ms lock poll) is not modelled;
  only the attempt counts are.
-/

/-- Go type `State` (a string).  The first document of part_001 defines only
the three constants `Prepare`, `Run`, `Done`; it has no `Broken` constant. -/
abbrev State := String

/-- Go constant `StatePrepare`. -/
def StatePrepare : State := "Prepare"

/-- Go constant `StateRun`. -/
def StateRun : State := "Run"

/-- Go constant `StateDone`. -/
def StateDone : State := "Done"

/-- Go constant `maxRetries = 5`. -/
def maxRetries : Nat := 5

/-- Go struct `Operations`: in-memory transaction plan.  `install` and
`remove` are Go slices (`none` = nil slice); `err` is a Go error
(`none` = nil). -/
structure Operations where
  state : State
  install : Option (List String)
  remove : Option (List String)
  err : Option String
deriving DecidableEq

/-- Elements of a Go string slice (`nil` behaves as the empty list). -/
def sliceElems (s : Option (List String)) : List String :=
  s.getD []

/-- Go `append` on a string slice: appending to a nil slice yields a
one-element non-nil slice. -/
def sliceAppend (s : Option (List String)) (x : String) : Option (List String) :=
  some (sliceElems s ++ [x])

/-- Go method `Operations.Install`: scans `t.install` for `packageFile`
and returns unchanged if already present, otherwise appends it. -/
def Operations.Install (t : Operations) (packageFile : String) : Operations :=
  if (sliceElems t.install).contains packageFile then t
  else { t with install := sliceAppend t.install packageFile }

/-- Go method `Operations.Remove`: scans `t.remove` for `packageName`
and returns unchanged if already present, otherwise appends it. -/
def Operations.Remove (t : Operations) (packageName : String) : Operations :=
  if (sliceElems t.remove).contains packageName then t
  else { t with remove := sliceAppend t.remove packageName }

/-- Go method `Operations.Clear`: resets `install` and `remove` to fresh
empty (non-nil) slices and `err` to nil.  The state field is untouched. -/
def Operations.Clear (t : Operations) : Operations :=
  { t with install := some [], remove := some [], err := none }

/-- Go struct `serializableOperations`, i.e. the JSON document stored in
`operations.json`.  A `none` field models a key omitted by `omitempty`. -/
structure SerialOps where
  state : String
  packagesToInstall : Option (List String)
  packagesToRemove : Option (List String)
  error : Option String
deriving DecidableEq

/-- JSON serialization of a string-slice field under `omitempty`: a nil or
empty slice is omitted from the document. -/
def serializeSlice (s : Option (List String)) : Option (List String) :=
  match s with
  | none => none
  | some l => if l.isEmpty then none else some l

/-- Go method `store.persist` (pure serialization part): builds the
`serializableOperations` value that is marshalled to `operations.json`.
The error field is the message of a non-nil error and `""` otherwise, and
`omitempty` drops the `""` case from the document. -/
def persistOps (ops : Operations) : SerialOps :=
  let sErr := match ops.err with
    | none => ""
    | some m => m
  { state := ops.state
  , packagesToInstall := serializeSlice ops.install
  , packagesToRemove := serializeSlice ops.remove
  , error := if sErr = "" then none else some sErr }

/-- Go method `store.Operations` (load, pure deserialization part): an
omitted error key unmarshals to `""` and a non-empty error string becomes a
non-nil error; omitted sequence keys unmarshal to nil slices, which are then
normalized to empty non-nil slices. -/
def loadOps (s : SerialOps) : Operations :=
  let e := s.error.getD ""
  { state := s.state
  , install := some (s.packagesToInstall.getD [])
  , remove := some (s.packagesToRemove.getD [])
  , err := if e = "" then none else some e }

/-- Message of a Go error, with the nil error reading as `""`. -/
def errMsg : Option String → String
  | none => ""
  | some m => m

/-- Go method `ExecutorStore.withRetry` (part_001 lines 234-245): runs the
action and, on any failure, retries after a 200 ms sleep, for at most
`maxRetries` total attempts; after exhaustion the last error is wrapped.
`action` is indexed by the attempt number (0-based) so that transient
faults can be modelled; the result pairs the final outcome with the number
of attempts that were made. -/
def retryGo (action : Nat → Except String α) (i : Nat) (fuel : Nat)
    (last : String) : Except String α × Nat :=
  match fuel with
  | 0 =>
    (.error ("state mutation failed after " ++ toString maxRetries
      ++ " retries: " ++ last), i)
  | fuel' + 1 =>
    match action i with
    | .ok a => (.ok a, i + 1)
    | .error e => retryGo action (i + 1) fuel' e

/-- Entry point of the retry wrapper: starts at attempt 0 with `maxRetries`
attempts available. -/
def withRetry (action : Nat → Except String α) : Except String α × Nat :=
  retryGo action 0 maxRetries ""

/-- Go method `store.updateState` (part_001 lines 410-423): fails before any
I/O when the flock is not held; otherwise loads the record, assigns the new
state and error, persists, and returns both the updated in-memory record
and the persisted document. -/
def updateState (lockHeld : Bool) (disk : Option SerialOps) (newState : State)
    (errInfo : Option String) : Except String (Operations × SerialOps) :=
  if !lockHeld then
    .error "updateState must be called while holding the operations lock"
  else
    match disk with
    | none => .error "failed to load operations for state update: not exist"
    | some s =>
      let ops := loadOps s
      let ops2 := { ops with state := newState, err := errInfo }
      .ok (ops2, persistOps ops2)

/-- Fault flags for a `ConsumerStore.Update` call: `lockFault` is a flock
error from `tryLock`, `lockBusy` means another process holds the advisory
lock, `loadFault` is a read error other than not-exist, `persistFault` is a
write error. -/
structure UpdateEnv where
  lockFault : Bool
  lockBusy : Bool
  loadFault : Bool
  persistFault : Bool
deriving DecidableEq

/-- The errors a `ConsumerStore.Update` call can return. -/
inductive ConsumerError where
  | lockCheckFailed
  | executionInProgress
  | loadFailed
  | modifyFailed (msg : String)
  | persistFailed
deriving DecidableEq

/-- Go method `ConsumerStore.Update` (part_001 lines 116-140): try-lock
(failure to acquire is `ErrExecutionInProgress`), load or synthesize an
empty `Prepare` record when the file is absent, refuse with
`ErrExecutionInProgress` unless the state is `Prepare`, run the modify
callback, persist.  The result is the returned error (or unit), the disk
content after the call, and whether this store still holds the advisory
lock when `Update` returns (the Go code releases it by `defer ds.unlock()`
on every path after acquisition). -/
def ConsumerUpdate (env : UpdateEnv) (modify : Operations → Except String Operations)
    (disk : Option SerialOps) :
    Except ConsumerError Unit × Option SerialOps × Bool :=
  if env.lockFault then (.error .lockCheckFailed, disk, false)
  else if env.lockBusy then (.error .executionInProgress, disk, false)
  else if env.loadFault then (.error .loadFailed, disk, false)
  else
    let ops := match disk with
      | none => { state := StatePrepare, install := none, remove := none, err := none }
      | some s => loadOps s
    if ops.state = StatePrepare then
      match modify ops with
      | .error m => (.error (.modifyFailed m), disk, false)
      | .ok ops2 =>
        if env.persistFault then (.error .persistFailed, disk, false)
        else (.ok (), some (persistOps ops2), false)
    else (.error .executionInProgress, disk, false)

/-- Go method `ExecutorStore.Broken` (part_001 lines 210-221): a nil cause
is rejected before any mutation; a non-nil cause runs
`updateState(StateDone, cause)` under the retry wrapper.  The result pairs
the returned error (or unit) with the disk content after the call. -/
def ExecutorBroken (cause : Option String) (lockHeld : Bool)
    (disk : Option SerialOps) : Except String Unit × Option SerialOps :=
  match cause with
  | none => (.error "Broken requires a non-nil error", disk)
  | some m =>
    match (withRetry (fun _ => updateState lockHeld disk StateDone (some m))).1 with
    | .ok (_, s2) => (.ok (), some s2)
    | .error e => (.error e, disk)

/-- Outcome of Go method `ExecutorStore.Start` (part_001 lines 160-182). -/
inductive StartOutcome where
  | ok (newDisk : SerialOps)
  | stateConflict (current : State)
  | loadFailed
  | mutationFailed (msg : String)
deriving DecidableEq

/-- Go method `ExecutorStore.Start`: loads the record (failure if absent),
returns a non-retryable state-conflict error when the state is not
`Prepare`, and otherwise transitions to `Run` under the retry wrapper. -/
def ExecutorStart (lockHeld : Bool) (disk : Option SerialOps) : StartOutcome :=
  match disk with
  | none => .loadFailed
  | some s =>
    let ops := loadOps s
    if ops.state = StatePrepare then
      match (withRetry (fun _ => updateState lockHeld (some s) StateRun none)).1 with
      | .ok (_, s2) => .ok s2
      | .error e => .mutationFailed e
    else .stateConflict ops.state

/-- Go method `ExecutorStore.Done` (part_001 lines 186-191):
`updateState(StateDone, nil)` under the retry wrapper. -/
def ExecutorDone (lockHeld : Bool) (disk : Option SerialOps) :
    Except String SerialOps :=
  match (withRetry (fun _ => updateState lockHeld disk StateDone none)).1 with
  | .ok (_, s2) => .ok s2
  | .error e => .error e

/-- Observable interactions of the executor driver with the outside world:
acquiring the advisory lock, and invocations of the external package
manager for one staged install or one staged removal. -/
inductive RunEvent where
  | lockAcquired
  | pkgManagerInstall (path : String)
  | pkgManagerRemove (name : String)
deriving DecidableEq

/-- Go function `Run` (part_001 lines 427-453), the executor driver entry
point.  It builds a fresh `ExecutorStore` and never calls `Lock`, so the
flock is not held (`lockHeld = false`) for the whole body; any `Start`
failure (state conflict, missing plan, or retry exhaustion) is logged and
`nil` is returned; on a started plan the body only simulates work
("Executor faking a successful run...") and then calls `Done`.  The result
is the returned error (or unit), the disk content after the call, and the
list of observable `RunEvent`s in order. -/
def ExecutorRun (disk : Option SerialOps) :
    Except String Unit × Option SerialOps × List RunEvent :=
  match ExecutorStart false disk with
  | .ok s2 =>
    match ExecutorDone false (some s2) with
    | .ok s3 => (.ok (), some s3, [])
    | .error e =>
      (.error ("CRITICAL: failed to finalize operations state: " ++ e), some s2, [])
  | .stateConflict _ => (.ok (), disk, [])
  | .loadFailed => (.ok (), disk, [])
  | .mutationFailed _ => (.ok (), disk, [])

/-- HTTP outcome of the commit handler, by status code and message class. -/
inductive CommitOutcome where
  | badRequest
  | serverError
  | conflict
  | emptyPlan
  | spawned
deriving DecidableEq

/-- Go method `Server.handleCommitTransaction` (handlers.go lines 124-162):
read the record (absent file is 400, other read error 500), 409 unless the
state is `Prepare`, 200 without spawning when both lists are empty, else
launch the detached executor via systemd-run (failure 500, success 202).
The boolean component records whether a spawn was attempted. -/
def handleCommitTransaction (loadFault spawnFault : Bool)
    (disk : Option SerialOps) : CommitOutcome × Bool :=
  if loadFault then (.serverError, false)
  else
    match disk with
    | none => (.badRequest, false)
    | some s =>
      let ops := loadOps s
      if ops.state = StatePrepare then
        if (sliceElems ops.install).isEmpty && (sliceElems ops.remove).isEmpty then
          (.emptyPlan, false)
        else if spawnFault then (.serverError, true)
        else (.spawned, true)
      else (.conflict, false)

/-- The modify callback that Go method `Server.handleClearTransaction`
(handlers.go lines 164-179) passes to `Update`: clear the plan, return nil. -/
def clearModify : Operations → Except String Operations :=
  fun ops => .ok ops.Clear

/-- Normalizing a slice (nil becomes empty) does not change what `omitempty`
serialization produces. -/
theorem serializeSlice_norm (s : Option (List String)) :
    serializeSlice (some (s.getD [])) = serializeSlice s := by
  cases s with
  | none => rfl
  | some l => cases l <;> rfl

/-- Deserializing an `omitempty`-serialized slice recovers the normalized
elements. -/
theorem serializeSlice_getD (s : Option (List String)) :
    (serializeSlice s).getD [] = sliceElems s := by
  cases s with
  | none => rfl
  | some l => cases l <;> rfl

/-- C7.  For every `Operations` value `V`, `persist(V)` followed by `load()`
returns a value equal to `V` under the normalization that absent (nil)
install/remove sequences become empty sequences, with the error compared by
its message. -/
theorem persist_load_roundtrip (V : Operations) :
    (loadOps (persistOps V)).state = V.state ∧
    (loadOps (persistOps V)).install = some (sliceElems V.install) ∧
    (loadOps (persistOps V)).remove = some (sliceElems V.remove) ∧
    errMsg (loadOps (persistOps V)).err = errMsg V.err := by
  obtain ⟨st, inst, rem, e⟩ := V
  refine ⟨rfl, ?_, ?_, ?_⟩
  · simp only [loadOps, persistOps, serializeSlice_getD]
  · simp only [loadOps, persistOps, serializeSlice_getD]
  · cases e with
    | none => rfl
    | some m =>
      by_cases hm : m = ""
      · subst hm; rfl
      · simp [loadOps, persistOps, errMsg, hm]

/-- C10.  After `load()`, the record's `err` is non-nil iff the persisted
`error` JSON string is non-empty (an omitted key reads as `""`); and an
`Operations` value carrying a non-nil error with an empty message is
persisted with the `error` key omitted and loads back with a nil `err`. -/
theorem load_err_nonempty (s : SerialOps) (V : Operations)
    (h : V.err = some "") :
    ((loadOps s).err ≠ none ↔ s.error.getD "" ≠ "") ∧
    (persistOps V).error = none ∧
    (loadOps (persistOps V)).err = none := by
  refine ⟨?_, ?_, ?_⟩
  · by_cases he : s.error.getD "" = "" <;> simp [loadOps, he]
  · simp [persistOps, h]
  · simp [loadOps, persistOps, h]

/-- C8.  Staging the same install path (resp. removal name) twice yields the
same list as staging it once, and a path or name not yet staged is appended
at the end, so each list keeps first-occurrence insertion order. -/
theorem staging_idempotent (t : Operations) (p n : String) :
    ((t.Install p).Install p = t.Install p) ∧
    ((t.Remove n).Remove n = t.Remove n) ∧
    ((sliceElems t.install).contains p = false →
      (t.Install p).install = some (sliceElems t.install ++ [p])) ∧
    ((sliceElems t.remove).contains n = false →
      (t.Remove n).remove = some (sliceElems t.remove ++ [n])) := by
  refine ⟨?_, ?_, ?_, ?_⟩
  · by_cases h : (sliceElems t.install).contains p = true
    · have e : t.Install p = t := by
        unfold Operations.Install; rw [if_pos h]
      rw [e]; exact e
    · have e1 : t.Install p = { t with install := sliceAppend t.install p } := by
        unfold Operations.Install; rw [if_neg h]
      have h2 : (sliceElems
          ({ t with install := sliceAppend t.install p } : Operations).install).contains p
          = true := by
        simp [sliceAppend, sliceElems]
      have e2 : ({ t with install := sliceAppend t.install p } : Operations).Install p
          = { t with install := sliceAppend t.install p } := by
        unfold Operations.Install; rw [if_pos h2]
      rw [e1, e2]
  · by_cases h : (sliceElems t.remove).contains n = true
    · have e : t.Remove n = t := by
        unfold Operations.Remove; rw [if_pos h]
      rw [e]; exact e
    · have e1 : t.Remove n = { t with remove := sliceAppend t.remove n } := by
        unfold Operations.Remove; rw [if_neg h]
      have h2 : (sliceElems
          ({ t with remove := sliceAppend t.remove n } : Operations).remove).contains n
          = true := by
        simp [sliceAppend, sliceElems]
      have e2 : ({ t with remove := sliceAppend t.remove n } : Operations).Remove n
          = { t with remove := sliceAppend t.remove n } := by
        unfold Operations.Remove; rw [if_pos h2]
      rw [e1, e2]
  · intro h
    unfold Operations.Install
    rw [if_neg (by rw [h]; simp)]
    rfl
  · intro h
    unfold Operations.Remove
    rw [if_neg (by rw [h]; simp)]
    rfl

/-- Concrete check for C8: on an empty plan the fresh path `p` is appended
(the `contains` hypothesis discharged at a concrete input). -/
theorem staging_idempotent_witness :
    ((sliceElems (⟨StatePrepare, none, none, none⟩ : Operations).install).contains "p"
        = false) ∧
    ((⟨StatePrepare, none, none, none⟩ : Operations).Install "p").install
      = some (sliceElems (⟨StatePrepare, none, none, none⟩ : Operations).install ++ ["p"]) :=
  ⟨rfl, (staging_idempotent ⟨StatePrepare, none, none, none⟩ "p" "n").2.2.1 rfl⟩

/-- Concrete check for C10 at a persisted record with a non-empty error and
an in-memory record with an empty-message error. -/
theorem load_err_nonempty_witness :
    ((⟨StatePrepare, none, none, some ""⟩ : Operations).err = some "") ∧
    (((loadOps ⟨StateDone, none, none, some "x"⟩).err ≠ none ↔
        (⟨StateDone, none, none, some "x"⟩ : SerialOps).error.getD "" ≠ "") ∧
      (persistOps ⟨StatePrepare, none, none, some ""⟩).error = none ∧
      (loadOps (persistOps ⟨StatePrepare, none, none, some ""⟩)).err = none) :=
  ⟨rfl, load_err_nonempty ⟨StateDone, none, none, some "x"⟩
    ⟨StatePrepare, none, none, some ""⟩ rfl⟩

/-- C2.  For every persisted record whose state is `Run`, `Done`, or
`Broken`, a `ConsumerStore.Update` call with any modify function returns
`ErrExecutionInProgress` and leaves the on-disk record unchanged (no
persist happens), provided the try-lock and the load do not themselves
fault (the advisory lock may or may not be busy). -/
theorem update_refused_outside_prepare (env : UpdateEnv)
    (modify : Operations → Except String Operations) (s : SerialOps)
    (h1 : env.lockFault = false) (h2 : env.loadFault = false)
    (h3 : s.state = StateRun ∨ s.state = StateDone ∨ s.state = "Broken") :
    (ConsumerUpdate env modify (some s)).1 = .error .executionInProgress ∧
    (ConsumerUpdate env modify (some s)).2.1 = some s := by
  have hs : ¬ (loadOps s).state = StatePrepare := by
    show ¬ s.state = StatePrepare
    rcases h3 with h | h | h <;> rw [h] <;> decide
  unfold ConsumerUpdate
  rw [h1, h2]
  cases hb : env.lockBusy <;> simp [hs]

/-- Concrete check for C2 at a `Run` record with an identity modify. -/
theorem update_refused_outside_prepare_witness :
    ((⟨false, false, false, false⟩ : UpdateEnv).lockFault = false) ∧
    ((⟨StateRun, none, none, none⟩ : SerialOps).state = StateRun) ∧
    ((ConsumerUpdate ⟨false, false, false, false⟩ (fun ops => .ok ops)
        (some ⟨StateRun, none, none, none⟩)).1 = .error .executionInProgress ∧
      (ConsumerUpdate ⟨false, false, false, false⟩ (fun ops => .ok ops)
        (some ⟨StateRun, none, none, none⟩)).2.1 = some ⟨StateRun, none, none, none⟩) :=
  ⟨rfl, rfl, update_refused_outside_prepare ⟨false, false, false, false⟩
    (fun ops => .ok ops) ⟨StateRun, none, none, none⟩ rfl rfl (Or.inl rfl)⟩

/-- C9.  Once `Update`'s try-lock has succeeded (no flock fault, lock not
busy), the advisory lock is released before `Update` returns on every
path: load failure, state not `Prepare`, modify-callback failure, persist
failure, and success. -/
theorem update_releases_lock (env : UpdateEnv)
    (modify : Operations → Except String Operations) (disk : Option SerialOps)
    (h1 : env.lockFault = false) (h2 : env.lockBusy = false) :
    (ConsumerUpdate env modify disk).2.2 = false := by
  unfold ConsumerUpdate
  rw [h1, h2]
  cases hl : env.loadFault <;> cases hp : env.persistFault <;>
    simp only [Bool.false_eq_true, Bool.true_eq_false, if_false, if_true,
      reduceIte] <;>
    split <;> (try split) <;> simp

/-- Concrete check for C9: a failed persist still returns with the lock
released. -/
theorem update_releases_lock_witness :
    ((⟨false, false, false, true⟩ : UpdateEnv).lockFault = false) ∧
    ((⟨false, false, false, true⟩ : UpdateEnv).lockBusy = false) ∧
    (ConsumerUpdate ⟨false, false, false, true⟩ (fun ops => .ok ops) none).2.2 = false :=
  ⟨rfl, rfl, update_releases_lock ⟨false, false, false, true⟩
    (fun ops => .ok ops) none rfl rfl⟩

/-- C4 counterexample.  On a persisted record in the terminal state `Done`,
`DELETE /transaction` (an `Update` running `Operations.Clear`) does NOT
succeed: it returns `ErrExecutionInProgress` and leaves the record in
`Done`, so the terminal state is not exited. -/
theorem clear_refused_on_done_counterexample :
    ConsumerUpdate ⟨false, false, false, false⟩ clearModify
        (some ⟨StateDone, none, none, none⟩)
      = (.error .executionInProgress, some ⟨StateDone, none, none, none⟩, false) ∧
    (.error .executionInProgress : Except ConsumerError Unit) ≠ .ok () := by
  exact ⟨rfl, by simp⟩

/-- C4 amended.  The clear operation succeeds only from `Prepare`: on a
record whose state is not `Prepare` (in particular `Done` or a broken
record) it returns `ErrExecutionInProgress` and leaves the record
unchanged, while on a `Prepare` record it persists an empty `Prepare`
record (empty lists, no error). -/
theorem clear_only_from_prepare (env : UpdateEnv) (s : SerialOps)
    (h1 : env.lockFault = false) (h2 : env.lockBusy = false)
    (h3 : env.loadFault = false) (h4 : env.persistFault = false) :
    (s.state ≠ StatePrepare →
      ConsumerUpdate env clearModify (some s)
        = (.error .executionInProgress, some s, false)) ∧
    (s.state = StatePrepare →
      ConsumerUpdate env clearModify (some s)
        = (.ok (), some ⟨StatePrepare, none, none, none⟩, false)) := by
  constructor
  · intro hs
    have hs' : ¬ (loadOps s).state = StatePrepare := hs
    unfold ConsumerUpdate
    rw [h1, h2, h3]
    simp [hs']
  · intro hs
    have hs' : (loadOps s).state = StatePrepare := hs
    unfold ConsumerUpdate
    rw [h1, h2, h3, h4]
    simp only [Bool.false_eq_true, if_false, if_pos hs', clearModify]
    simp [persistOps, Operations.Clear, serializeSlice]
    exact hs

/-- Concrete check for C4 (amended) at a `Done` record: clear is refused
and the record is unchanged. -/
theorem clear_only_from_prepare_witness :
    ((⟨StateDone, none, none, none⟩ : SerialOps).state ≠ StatePrepare) ∧
    ConsumerUpdate ⟨false, false, false, false⟩ clearModify
        (some ⟨StateDone, none, none, none⟩)
      = (.error .executionInProgress, some ⟨StateDone, none, none, none⟩, false) :=
  ⟨by decide, (clear_only_from_prepare ⟨false, false, false, false⟩
    ⟨StateDone, none, none, none⟩ rfl rfl rfl rfl).1 (by decide)⟩

/-- C1 counterexample.  With the lock held and a `Run` record on disk,
`Broken("boom")` persists a record whose state is `Done` — not a distinct
`Broken` state, which does not even exist as a constant in the code — with
the cause recorded in the error field. -/
theorem broken_persists_done_counterexample :
    (ExecutorBroken (some "boom") true (some ⟨StateRun, none, none, none⟩)).2
        = some ⟨StateDone, none, none, some "boom"⟩ ∧
    StateDone ≠ "Broken" := by
  exact ⟨rfl, by decide⟩

/-- C1 amended.  A nil cause is rejected with an error and the record is
left unchanged; for every non-nil cause (with the lock held and a record on
disk), `Broken` succeeds and persists the record with state `Done` and the
cause as its error (the broken outcome is represented as `Done` plus a
recorded error; the install/remove lists are preserved up to `omitempty`
normalization). -/
theorem broken_nil_rejected_nonnil_done (lockHeld : Bool)
    (disk : Option SerialOps) (m : String) (s : SerialOps) :
    (ExecutorBroken none lockHeld disk
        = (.error "Broken requires a non-nil error", disk)) ∧
    (ExecutorBroken (some m) true (some s)
        = (.ok (), some ⟨StateDone, serializeSlice s.packagesToInstall,
            serializeSlice s.packagesToRemove,
            if m = "" then none else some m⟩)) := by
  constructor
  · rfl
  · have hu : updateState true (some s) StateDone (some m)
        = .ok ({ loadOps s with state := StateDone, err := some m },
            persistOps { loadOps s with state := StateDone, err := some m }) := rfl
    have hp : persistOps { loadOps s with state := StateDone, err := some m }
        = ⟨StateDone, serializeSlice s.packagesToInstall,
            serializeSlice s.packagesToRemove,
            if m = "" then none else some m⟩ := by
      simp only [persistOps, loadOps]
      rw [serializeSlice_norm, serializeSlice_norm]
    simp only [ExecutorBroken, withRetry, maxRetries, retryGo, hu, hp]

/-- C6 counterexample.  An `updateState` that fails because the lock is not
held IS retried: the wrapper makes all 5 attempts (each separated by the
200 ms delay) and only then surfaces the wrapped `NotLocked` message, not
after a single attempt. -/
theorem notlocked_is_retried_counterexample :
    (withRetry (fun _ => updateState false
        (some ⟨StatePrepare, none, none, none⟩) StateRun none)).2 = 5 ∧
    (withRetry (fun _ => updateState false
        (some ⟨StatePrepare, none, none, none⟩) StateRun none)).2 ≠ 1 ∧
    (withRetry (fun _ => updateState false
        (some ⟨StatePrepare, none, none, none⟩) StateRun none)).1
      = .error ("state mutation failed after " ++ toString maxRetries
          ++ " retries: updateState must be called while holding the operations lock") := by
  exact ⟨rfl, by decide, rfl⟩

/-- C6 amended.  The retry wrapper treats every failure alike, `NotLocked`
included: an action that always fails (in particular with the `NotLocked`
message) is attempted 5 times, with the 200 ms fixed delay between
attempts, and the last error is then surfaced wrapped; an action whose
transient faults stop before the 5th attempt succeeds with no further
attempts. -/
theorem retry_policy (e : String) (a : Nat → Except String Unit) (k : Nat)
    (hk : k < maxRetries)
    (hfail : ∀ j, j < k → ∃ m, a j = .error m)
    (hok : a k = .ok ()) :
    (withRetry (fun _ => (.error e : Except String Unit))
        = (.error ("state mutation failed after " ++ toString maxRetries
            ++ " retries: " ++ e), maxRetries)) ∧
    withRetry a = (.ok (), k + 1) := by
  constructor
  · rfl
  · unfold maxRetries at hk
    interval_cases k
    · simp [withRetry, retryGo, maxRetries, hok]
    · obtain ⟨m0, h0⟩ := hfail 0 (by norm_num)
      simp [withRetry, retryGo, maxRetries, h0, hok]
    · obtain ⟨m0, h0⟩ := hfail 0 (by norm_num)
      obtain ⟨m1, h1⟩ := hfail 1 (by norm_num)
      simp [withRetry, retryGo, maxRetries, h0, h1, hok]
    · obtain ⟨m0, h0⟩ := hfail 0 (by norm_num)
      obtain ⟨m1, h1⟩ := hfail 1 (by norm_num)
      obtain ⟨m2, h2⟩ := hfail 2 (by norm_num)
      simp [withRetry, retryGo, maxRetries, h0, h1, h2, hok]
    · obtain ⟨m0, h0⟩ := hfail 0 (by norm_num)
      obtain ⟨m1, h1⟩ := hfail 1 (by norm_num)
      obtain ⟨m2, h2⟩ := hfail 2 (by norm_num)
      obtain ⟨m3, h3⟩ := hfail 3 (by norm_num)
      simp [withRetry, retryGo, maxRetries, h0, h1, h2, h3, hok]

/-- Concrete check for C6 (amended): an action that succeeds on its first
attempt is not retried, and the constantly failing `NotLocked` action is
attempted 5 times. -/
theorem retry_policy_witness :
    (0 < maxRetries) ∧
    ((fun i => if i = 0 then (.ok () : Except String Unit) else .error "io fault") 0
      = .ok ()) ∧
    ((withRetry (fun _ =>
        (.error "updateState must be called while holding the operations lock"
          : Except String Unit))
        = (.error ("state mutation failed after " ++ toString maxRetries
            ++ " retries: updateState must be called while holding the operations lock"),
          maxRetries)) ∧
      withRetry (fun i => if i = 0 then (.ok () : Except String Unit) else .error "io fault")
        = (.ok (), 0 + 1)) :=
  ⟨by decide, rfl,
    retry_policy "updateState must be called while holding the operations lock"
      (fun i => if i = 0 then .ok () else .error "io fault") 0 (by decide)
      (fun j hj => absurd hj (by omega)) rfl⟩

/-- C5.  The commit handler (POST /transaction), with the read and the
spawn succeeding: 400 when no record file exists; 409 whenever the state is
not `Prepare`; 200 "empty" without attempting a spawn when the state is
`Prepare` and both lists are empty; and a detached-executor spawn with 202
only otherwise. -/
theorem commit_dispatch (s : SerialOps) :
    (handleCommitTransaction false false none = (.badRequest, false)) ∧
    (s.state ≠ StatePrepare →
      handleCommitTransaction false false (some s) = (.conflict, false)) ∧
    (s.state = StatePrepare →
      ((s.packagesToInstall.getD []).isEmpty
        && (s.packagesToRemove.getD []).isEmpty) = true →
      handleCommitTransaction false false (some s) = (.emptyPlan, false)) ∧
    (s.state = StatePrepare →
      ((s.packagesToInstall.getD []).isEmpty
        && (s.packagesToRemove.getD []).isEmpty) = false →
      handleCommitTransaction false false (some s) = (.spawned, true)) := by
  refine ⟨rfl, ?_, ?_, ?_⟩
  · intro hs
    have hs' : ¬ (loadOps s).state = StatePrepare := hs
    unfold handleCommitTransaction
    simp [hs']
  · intro hs he
    have hs' : (loadOps s).state = StatePrepare := hs
    have he' : ((sliceElems (loadOps s).install).isEmpty
        && (sliceElems (loadOps s).remove).isEmpty) = true := he
    unfold handleCommitTransaction
    simp only [Bool.false_eq_true, if_false, if_pos hs', he', if_true]
  · intro hs he
    have hs' : (loadOps s).state = StatePrepare := hs
    have he' : ((sliceElems (loadOps s).install).isEmpty
        && (sliceElems (loadOps s).remove).isEmpty) = false := he
    unfold handleCommitTransaction
    simp only [Bool.false_eq_true, if_false, if_pos hs', he']

/-- Concrete check for C5: a `Prepare` record with one staged install is
committed by spawning the executor. -/
theorem commit_dispatch_witness :
    ((⟨StatePrepare, some ["/var/lib/groom/pool/a.deb"], none, none⟩ : SerialOps).state
        = StatePrepare) ∧
    ((SerialOps.packagesToInstall ⟨StatePrepare, some ["/var/lib/groom/pool/a.deb"], none, none⟩
          |>.getD []).isEmpty
        && ((SerialOps.packagesToRemove ⟨StatePrepare, some ["/var/lib/groom/pool/a.deb"], none, none⟩
          |>.getD []).isEmpty)) = false ∧
    handleCommitTransaction false false
        (some ⟨StatePrepare, some ["/var/lib/groom/pool/a.deb"], none, none⟩)
      = (.spawned, true) :=
  ⟨rfl, rfl,
    (commit_dispatch ⟨StatePrepare, some ["/var/lib/groom/pool/a.deb"], none, none⟩).2.2.2
      rfl rfl⟩

/-- C3 (evaluation of the executor driver at a committed plan).  On a
`Prepare` record with one staged install, `Run` acquires no lock (no
`lockAcquired` event), invokes no package manager (no `pkgManager` events),
and — because the lock is never held — its `Start` cannot even transition
the record, so `Run` returns nil with the record left in `Prepare`.  This
contradicts the documented sequence lock → start → apply → done. -/
theorem executor_run_no_lock_no_packages :
    ExecutorRun (some ⟨StatePrepare, some ["/var/lib/groom/pool/a.deb"], none, none⟩)
      = (.ok (), some ⟨StatePrepare, some ["/var/lib/groom/pool/a.deb"], none, none⟩,
          ([] : List RunEvent)) := by
  rfl
